import Mathlib

/-!
Verification of the Live Challenge Arena session protocol and the
proctoring/anti-cheat state machine of the PSN skill-assessment platform.

The definitions below are a shallow embedding of the TypeScript sources:
  - src/services/challenge.ts (the firebaseImplementation service object):
    the session document shape and the pure read-modify-write bodies of the
    joinSession / leaveSession / updateProgress Firestore transactions, and
    the unconditional merge-updates of startSession / setSessionScenario.
  - src/services/gemini.ts: the withRetry combinator and the
    analyzeEnvironmentSnapshot fallback behaviour.
  - src/pages/ExamRoom.tsx: MAX_VIOLATIONS, the addViolation accumulator
    with its 2-second dampening window, and the camera-check call site.
  - src/pages/ChallengeArena.tsx: the TrialRoom submission verdict, the
    TrialRoom proctoring heartbeat, and handleCreatePrivateSession with its
    deterministic fallback scenario.

The Firestore runTransaction primitive is modelled by an optimistic
concurrency store: a transaction body is a pure function of the snapshot it
read; a commit succeeds only if the store version is unchanged since the
read, otherwise the whole transaction is retried from a fresh read.  Two
concurrent clients are executed against one shared store under an arbitrary
interleaving schedule.
-/

/-- Participant status enum: the TypeScript union type
coding | validating | finished. -/
inductive ParticipantStatus where
  | coding
  | validating
  | finished
deriving DecidableEq, Repr

/-- Session status enum: the TypeScript union type
waiting | active | finished. -/
inductive SessionStatus where
  | waiting
  | active
  | finished
deriving DecidableEq, Repr

/-- ChallengeCheckpoint from src/types (id, title, description, completed). -/
structure ChallengeCheckpoint where
  id : Nat
  title : String
  description : String
  completed : Bool
deriving DecidableEq, Repr

/-- ChallengeParticipant: the value embedded in a session document. -/
structure ChallengeParticipant where
  id : String
  name : String
  avatar : String
  progress : Int
  score : Int
  status : ParticipantStatus
  isBot : Bool
deriving DecidableEq, Repr

/-- The identity triple the service receives for the current user
(avatar is optional in the User type). -/
structure User where
  id : String
  name : String
  avatar : Option String
deriving DecidableEq, Repr

/-- ChallengeSession: the shared session document, keyed by the 6-character
code stored in the id field.  taskDescription, checkpoints and startTime are
optional fields of the TypeScript interface. -/
structure ChallengeSession where
  id : String
  hostId : String
  domain : String
  status : SessionStatus
  participants : List ChallengeParticipant
  taskDescription : Option String
  checkpoints : Option (List ChallengeCheckpoint)
  startTime : Option Nat
deriving DecidableEq, Repr

/-- The JavaScript expression (user.avatar || fallback): an absent or empty
avatar string falls back to the given default character. -/
def avatarOr (fallback : String) (a : Option String) : String :=
  match a with
  | none => fallback
  | some s => if s = "" then fallback else s

/-- The fresh participant record built by joinSession for a joining user
(progress 0, score 0, status coding, isBot false, avatar defaulting to P). -/
def joinParticipant (user : User) : ChallengeParticipant :=
  { id := user.id
    name := user.name
    avatar := avatarOr ("P") user.avatar
    progress := 0
    score := 0
    status := ParticipantStatus.coding
    isBot := false }

/-- The initial participant record built by createSession for the host
(avatar defaulting to H). -/
def hostParticipant (host : User) : ChallengeParticipant :=
  { id := host.id
    name := host.name
    avatar := avatarOr ("H") host.avatar
    progress := 0
    score := 0
    status := ParticipantStatus.coding
    isBot := false }

/-- The session document written by createSession: status waiting, the host
as sole participant, no scenario and no start time yet. -/
def createSessionDoc (code : String) (host : User) (domain : String) :
    ChallengeSession :=
  { id := code
    hostId := host.id
    domain := domain
    status := SessionStatus.waiting
    participants := [hostParticipant host]
    taskDescription := none
    checkpoints := none
    startTime := none }

/-- A Firestore transaction body, as a pure function of the snapshot it was
given: it either throws (error), commits no write (ok none), or writes a new
document value (ok some). -/
def TxnBody : Type :=
  Option ChallengeSession → Except String (Option ChallengeSession)

/-- The transaction body of firebaseImplementation.joinSession: throw if the
document does not exist; throw if the session is no longer waiting and the
user is not already a participant; append the user if not already present,
otherwise commit nothing (idempotent re-join). -/
def joinSessionBody (user : User) : TxnBody := fun docData =>
  match docData with
  | none => Except.error ("Session not found")
  | some data =>
    let isAlreadyIn := data.participants.any (fun p => p.id == user.id)
    if data.status ≠ SessionStatus.waiting ∧ isAlreadyIn = false then
      Except.error ("Session is already active or finished")
    else if isAlreadyIn = false then
      Except.ok (some { data with
        participants := data.participants ++ [joinParticipant user] })
    else
      Except.ok none

/-- The transaction body of firebaseImplementation.leaveSession: return
without writing if the document does not exist, otherwise write back the
participants list with the given user id filtered out. -/
def leaveSessionBody (userId : String) : TxnBody := fun docData =>
  match docData with
  | none => Except.ok none
  | some data =>
    Except.ok (some { data with
      participants := data.participants.filter (fun p => p.id ≠ userId) })

/-- The transaction body of firebaseImplementation.updateProgress: return
without writing if the document does not exist, otherwise map over the
participants, replacing the progress and status fields of the single
participant whose id matches. -/
def updateProgressBody (userId : String) (progress : Int)
    (status : ParticipantStatus) : TxnBody := fun docData =>
  match docData with
  | none => Except.ok none
  | some data =>
    Except.ok (some { data with
      participants := data.participants.map (fun p =>
        if p.id = userId then { p with progress := progress, status := status }
        else p) })

/-- The net effect of running one transaction body alone against a document:
a committed write replaces the document, a throw or an empty commit leaves
it unchanged. -/
def txnEffect (body : TxnBody) (d : Option ChallengeSession) :
    Option ChallengeSession :=
  match body d with
  | Except.ok (some d2) => some d2
  | _ => d

/-- firebaseImplementation.startSession: an unconditional merge-update
(updateDoc) setting status to active and startTime to the current time.
updateDoc on a missing document errors and the error is swallowed, so a
missing document is left missing. -/
def startSessionMerge (now : Nat) (d : Option ChallengeSession) :
    Option ChallengeSession :=
  match d with
  | none => none
  | some data =>
    some { data with status := SessionStatus.active, startTime := some now }

/-- firebaseImplementation.setSessionScenario: an unconditional merge-update
writing the taskDescription and checkpoints fields. -/
def setSessionScenarioMerge (taskDescription : String)
    (checkpoints : List ChallengeCheckpoint) (d : Option ChallengeSession) :
    Option ChallengeSession :=
  match d with
  | none => none
  | some data =>
    some { data with
      taskDescription := some taskDescription
      checkpoints := some checkpoints }

/-- firebaseImplementation.subscribeToSession delivery: the onSnapshot
callback receives the document data when it exists and null otherwise. -/
def subscriptionDelivery (d : Option ChallengeSession) :
    Option ChallengeSession :=
  match d with
  | none => none
  | some data => some data

/-!  The optimistic-concurrency store.

The Firestore runTransaction reads a snapshot, runs the user body on it, and
commits only if none of the read documents changed in the meantime;
otherwise the body is re-run on a fresh snapshot.  A thrown body aborts the
transaction immediately with that error.  The store below carries a version
counter bumped on every committed write; a client is a small state machine
(idle, holding a read snapshot, or finished) and two clients are driven by
an arbitrary boolean schedule.  -/

/-- The shared store: the (possibly absent) session document plus a version
counter bumped on every committed write. -/
structure Store where
  doc : Option ChallengeSession
  version : Nat
deriving DecidableEq, Repr

deriving instance DecidableEq for Except

/-- One client of the store: not yet started (or retrying after a
conflict), holding the snapshot and version it read, or finished with the
result of its transaction. -/
inductive ClientPhase where
  | idle
  | readDone (snap : Option ChallengeSession) (ver : Nat)
  | finished (result : Except String Unit)
deriving DecidableEq

/-- Whether a client has finished its transaction. -/
def ClientPhase.isDone : ClientPhase → Bool
  | ClientPhase.finished _ => true
  | _ => false

/-- One step of a client against the store: an idle client reads a
snapshot; a client holding a snapshot runs the body on it, aborting on a
thrown error, committing if the store version is unchanged since its read
(bumping the version when the commit writes), and falling back to idle
(retry) on a version conflict; a finished client does nothing. -/
def stepClient (body : TxnBody) (st : Store) :
    ClientPhase → Store × ClientPhase
  | ClientPhase.idle => (st, ClientPhase.readDone st.doc st.version)
  | ClientPhase.readDone snap ver =>
    match body snap with
    | Except.error e => (st, ClientPhase.finished (Except.error e))
    | Except.ok none =>
      if ver = st.version then (st, ClientPhase.finished (Except.ok ()))
      else (st, ClientPhase.idle)
    | Except.ok (some d) =>
      if ver = st.version then
        ({ doc := some d, version := st.version + 1 },
          ClientPhase.finished (Except.ok ()))
      else (st, ClientPhase.idle)
  | ClientPhase.finished r => (st, ClientPhase.finished r)

/-- Two clients sharing one store. -/
structure ArenaState where
  store : Store
  c1 : ClientPhase
  c2 : ClientPhase
deriving DecidableEq

/-- One interleaving step: the schedule picks which client moves. -/
def arenaStep (b1 b2 : TxnBody) (pick1 : Bool) (s : ArenaState) : ArenaState :=
  if pick1 then
    let r := stepClient b1 s.store s.c1
    { s with store := r.1, c1 := r.2 }
  else
    let r := stepClient b2 s.store s.c2
    { s with store := r.1, c2 := r.2 }

/-- Run two transactions against the shared store under an arbitrary
interleaving schedule. -/
def arenaRun (b1 b2 : TxnBody) (sched : List Bool) (s : ArenaState) :
    ArenaState :=
  sched.foldl (fun s pick => arenaStep b1 b2 pick s) s

/-- The invariant tying the progress of the two clients to the store:
the document is the initial one with the effects of
transactions of exactly the finished clients applied (in one of the two serial orders when both
are finished); any held snapshot is a past document value (the initial one
or the effect of the other client on it), is never newer than the store, and
coincides with the current document when its version is current; finished
clients succeeded. -/
def TwoTxnInv (b1 b2 : TxnBody) (d0 : Option ChallengeSession)
    (s : ArenaState) : Prop :=
  (s.c1.isDone = false → s.c2.isDone = false → s.store.doc = d0) ∧
  (s.c1.isDone = true → s.c2.isDone = false → s.store.doc = txnEffect b1 d0) ∧
  (s.c1.isDone = false → s.c2.isDone = true → s.store.doc = txnEffect b2 d0) ∧
  (s.c1.isDone = true → s.c2.isDone = true →
    s.store.doc = txnEffect b2 (txnEffect b1 d0) ∨
    s.store.doc = txnEffect b1 (txnEffect b2 d0)) ∧
  (∀ snap ver, s.c1 = ClientPhase.readDone snap ver →
    (snap = d0 ∨ snap = txnEffect b2 d0) ∧ ver ≤ s.store.version ∧
    (ver = s.store.version → snap = s.store.doc)) ∧
  (∀ snap ver, s.c2 = ClientPhase.readDone snap ver →
    (snap = d0 ∨ snap = txnEffect b1 d0) ∧ ver ≤ s.store.version ∧
    (ver = s.store.version → snap = s.store.doc)) ∧
  (∀ r, s.c1 = ClientPhase.finished r → r = Except.ok ()) ∧
  (∀ r, s.c2 = ClientPhase.finished r → r = Except.ok ())

/-- A transaction body never throwing on the documents the given scenario
can show it: the initial document and the effect of the other body on it. -/
def NeverThrowsOn (b other : TxnBody) (d0 : Option ChallengeSession) : Prop :=
  (∃ w, b d0 = Except.ok w) ∧ (∃ w, b (txnEffect other d0) = Except.ok w)

/-- A sample host identity used by concrete evaluations. -/
def sampleHost : User :=
  { id := "H1", name := "Host", avatar := none }

/-- A sample joining user used by concrete evaluations. -/
def sampleU1 : User :=
  { id := "U1", name := "Alice", avatar := none }

/-- A second sample joining user used by concrete evaluations. -/
def sampleU2 : User :=
  { id := "U2", name := "Bob", avatar := none }

/-- A sample freshly created session document. -/
def sampleSession : ChallengeSession :=
  createSessionDoc ("ABC123") sampleHost ("Algorithms")

/-- The shared store holding the sample session, with both clients idle. -/
def sampleInitArena : ArenaState :=
  { store := { doc := some sampleSession, version := 0 }
    c1 := ClientPhase.idle
    c2 := ClientPhase.idle }

/-- A schedule interleaving two clients: both read the same snapshot, the
first commits, the second conflicts, retries and commits. -/
def sampleSchedule : List Bool :=
  [true, false, true, false, false, false]

/-- The result object joinSession resolves with: success true when the
transaction ran to completion, success false carrying the thrown string
otherwise. -/
structure JoinResult where
  success : Bool
  message : Option String
deriving DecidableEq, Repr

/-- The service-level result of joinSession, as derived from its
transaction body: a thrown string becomes a failure message, anything else
is success. -/
def joinSessionService (user : User) (d : Option ChallengeSession) :
    JoinResult :=
  match joinSessionBody user d with
  | Except.error e => { success := false, message := some e }
  | Except.ok _ => { success := true, message := none }

/-- The per-participant rewrite performed by updateProgress: the matching
participant gets the new progress and status, everyone else is returned
unchanged. -/
def progressUpdate (uid : String) (pr : Int) (st : ParticipantStatus)
    (p : ChallengeParticipant) : ChallengeParticipant :=
  if p.id = uid then { p with progress := pr, status := st } else p

/-- The sample session after the race has started. -/
def sampleActiveSession : ChallengeSession :=
  { sampleSession with status := SessionStatus.active }

/-- A sample finished session (the status value nothing in the service
itself ever writes, but which the status enum admits). -/
def sampleFinishedSession : ChallengeSession :=
  { sampleSession with status := SessionStatus.finished }

/-- A sample two-participant active race session. -/
def sampleRaceSession : ChallengeSession :=
  { sampleSession with
    status := SessionStatus.active
    participants := [hostParticipant sampleHost, joinParticipant sampleU1] }

/-- The withRetry combinator of src/services/gemini.ts, run against an
oracle giving the outcome of each attempt (numbered from 0): try the
current attempt; on failure with no retries left rethrow, otherwise wait
the current delay and recurse with one retry fewer and the delay doubled.
Returns the final outcome, the total number of attempts made, and the
list of delays waited between attempts. -/
def withRetryRun {α : Type} (fn : Nat → Except Unit α)
    (retries delay attempt : Nat) : Except Unit α × Nat × List Nat :=
  match fn attempt with
  | Except.ok a => (Except.ok a, 1, [])
  | Except.error e =>
    match retries with
    | 0 => (Except.error e, 1, [])
    | r + 1 =>
      let rest := withRetryRun fn r (delay * 2) (attempt + 1)
      (rest.1, rest.2.1 + 1, delay :: rest.2.2)

/-- The scenario payload produced by generateChallengeScenario. -/
structure ChallengeScenario where
  taskDescription : String
  checkpoints : List ChallengeCheckpoint
deriving DecidableEq, Repr

/-- generateChallengeScenario: one AI call wrapped in withRetry with the
default budget (retries 3, initial delay 1000 ms), given the oracle of
attempt outcomes. -/
def generateChallengeScenario
    (attempts : Nat → Except Unit ChallengeScenario) :
    Except Unit ChallengeScenario :=
  (withRetryRun attempts 3 1000 0).1

/-- The fixed fallback task text of handleCreatePrivateSession
(parameterised by the chosen domain, as in the source template string). -/
def fallbackTask (domain : String) : String :=
  "Implement a solution for the " ++ domain ++
    " challenge. Ensure your code handles edge cases."

/-- The fixed fallback checkpoint list of handleCreatePrivateSession. -/
def fallbackCheckpoints : List ChallengeCheckpoint :=
  [ { id := 1, title := "Initialize Structure"
      description := "Setup the basic class or function", completed := false }
  , { id := 2, title := "Core Logic"
      description := "Implement the main algorithm", completed := false }
  , { id := 3, title := "Edge Cases"
      description := "Handle invalid inputs", completed := false } ]

/-- The host-side generation state handleCreatePrivateSession leaves
behind: what was published to the session via setSessionScenario, and the
generatedTaskReady / isGeneratingTask flags. -/
structure CreateFlowState where
  publishedScenario : Option ChallengeScenario
  generatedTaskReady : Bool
  isGeneratingTask : Bool
deriving DecidableEq, Repr

/-- The scenario-generation phase of handleCreatePrivateSession: on a
successful generation the scenario is published and the start button
enabled; on failure the fixed fallback scenario is published instead and
the start button is still enabled; either way generation stops. -/
def handleCreatePrivateSession (genResult : Except Unit ChallengeScenario)
    (domain : String) : CreateFlowState :=
  match genResult with
  | Except.ok sc =>
    { publishedScenario := some sc
      generatedTaskReady := true
      isGeneratingTask := false }
  | Except.error _ =>
    { publishedScenario := some
        { taskDescription := fallbackTask domain
          checkpoints := fallbackCheckpoints }
      generatedTaskReady := true
      isGeneratingTask := false }

/-- AntiCheatLog from src/types: the violation accumulator of the Trial flow
(the optional environmentViolations array is modelled with the empty list
for absent). -/
structure AntiCheatLog where
  tabSwitchCount : Nat
  pasteCount : Nat
  focusLostTime : Nat
  environmentViolations : List String
deriving DecidableEq, Repr

/-- Trial threshold: tab switches beyond this void the trial. -/
def MAX_TAB_SWITCHES : Nat := 2

/-- Trial threshold: any paste beyond this voids the trial. -/
def MAX_PASTES : Nat := 0

/-- Trial threshold: cumulative focus-lost milliseconds beyond this void
the trial. -/
def MAX_FOCUS_LOST_TIME : Nat := 5000

/-- SkillDNAScore from src/types. -/
structure SkillDNAScore where
  problemSolving : Int
  executionSpeed : Int
  conceptualDepth : Int
  aiLeverage : Int
  riskAwareness : Int
  average : Int
deriving DecidableEq, Repr

/-- The zero/void sentinel score the Trial verdict forces on an integrity
rejection. -/
def zeroSkillScore : SkillDNAScore :=
  { problemSolving := 0, executionSpeed := 0, conceptualDepth := 0
    aiLeverage := 0, riskAwareness := 0, average := 0 }

/-- The outcome TrialRoom.handleSubmit stores on the session: a score and
a feedback string. -/
structure TrialOutcome where
  score : SkillDNAScore
  feedback : String
deriving DecidableEq, Repr

/-- The violation reasons collected by TrialRoom.handleSubmit, in source
order: clipboard, window switching, absence, environment. -/
def trialViolationReasons (a : AntiCheatLog) : List String :=
  (if a.pasteCount > MAX_PASTES
    then ["Clipboard misuse detected."] else []) ++
  (if a.tabSwitchCount > MAX_TAB_SWITCHES
    then ["Excessive window switching."] else []) ++
  (if a.focusLostTime > MAX_FOCUS_LOST_TIME
    then ["Extended absence."] else []) ++
  (if a.environmentViolations.length > 2
    then ["Persistent environment security violations."] else [])

/-- TrialRoom.handleSubmit: if any threshold is exceeded the verdict is
the void sentinel with the concatenated reasons; otherwise the submission
is delegated to the AI grading call and that score and feedback stand. -/
def trialHandleSubmit (a : AntiCheatLog) (aiScore : SkillDNAScore)
    (aiFeedback : String) : TrialOutcome :=
  let violations := trialViolationReasons a
  if violations.length > 0 then
    { score := zeroSkillScore
      feedback := "VERIFICATION REJECTED: " ++
        String.intercalate (" ") violations }
  else
    { score := aiScore, feedback := aiFeedback }

/-- The ExamRoom status union type. -/
inductive ExamStatus where
  | payment
  | setup
  | loading
  | mcq
  | theory
  | practical
  | grading
  | results
  | failed
deriving DecidableEq, Repr

/-- Whether the continuous-monitoring effect is attached: only during the
three exam sections (mcq, theory, practical). -/
def examSectionActive (st : ExamStatus) : Bool :=
  match st with
  | ExamStatus.mcq => true
  | ExamStatus.theory => true
  | ExamStatus.practical => true
  | _ => false

/-- The Exam flow tolerance threshold (src/pages/ExamRoom.tsx line 17). -/
def MAX_VIOLATIONS : Nat := 5

/-- The proctoring state ExamRoom keeps: the status, the violations list,
and the time of the last recorded violation (the dampening reference). -/
structure ExamProctorState where
  status : ExamStatus
  violations : List String
  lastViolation : Nat
deriving DecidableEq, Repr

/-- ExamRoom.addViolation: drop the event if it is within 2000 ms of the
last recorded violation; otherwise append it, and if the new count
exceeds MAX_VIOLATIONS switch the status to failed. -/
def addViolation (now : Nat) (msg : String) (s : ExamProctorState) :
    ExamProctorState :=
  if now - s.lastViolation < 2000 then s
  else
    let newV := s.violations ++ [msg]
    { status := if newV.length > MAX_VIOLATIONS then ExamStatus.failed
        else s.status
      violations := newV
      lastViolation := now }

/-- One monitored event (timestamp, message) arriving at the ExamRoom:
the listeners that call addViolation are attached only while a section is
active, so outside the sections (in particular once failed) the event is
discarded. -/
def examEvent (s : ExamProctorState) (e : Nat × String) : ExamProctorState :=
  if examSectionActive s.status then addViolation e.1 e.2 s else s

/-- Feeding a sequence of monitored events through the ExamRoom. -/
def runExamEvents (s : ExamProctorState) (events : List (Nat × String)) :
    ExamProctorState :=
  events.foldl examEvent s

/-- The proctoring state at the start of the first exam section. -/
def initialExamProctorState : ExamProctorState :=
  { status := ExamStatus.mcq, violations := [], lastViolation := 0 }

/-- The structured result of the environment-snapshot analysis. -/
structure EnvCheckResult where
  lighting : Bool
  singlePerson : Bool
  noDevices : Bool
  feedback : String
deriving DecidableEq, Repr

/-- analyzeEnvironmentSnapshot seen from its callers: the whole body is
wrapped in a try/catch, so the function never throws; when the (retried)
underlying AI call fails, it resolves with the fixed all-false result and
the error feedback string. -/
def analyzeEnvironmentSnapshot (callOutcome : Except Unit EnvCheckResult) :
    EnvCheckResult :=
  match callOutcome with
  | Except.ok r => r
  | Except.error _ =>
    { lighting := false, singlePerson := false, noDevices := false
      feedback := "Security analysis engine error." }

/-- analyzeEnvironmentSnapshot including its retry policy: the underlying
call is wrapped in withRetry with retries 1 and a fixed 3000 ms delay
(the latency-sensitive variant), and the result of that goes through the
catch-all fallback. -/
def analyzeEnvironmentSnapshotRun
    (attempts : Nat → Except Unit EnvCheckResult) : EnvCheckResult :=
  analyzeEnvironmentSnapshot ((withRetryRun attempts 1 3000 0).1)

/-- The TrialRoom proctoring heartbeat handler: when any sub-flag of the
snapshot result is false, append one entry (the feedback string of the result)
to environmentViolations; otherwise leave the log unchanged. -/
def trialProctorStep (r : EnvCheckResult) (a : AntiCheatLog) : AntiCheatLog :=
  if r.lighting = false ∨ r.singlePerson = false ∨ r.noDevices = false then
    { a with environmentViolations := a.environmentViolations ++ [r.feedback] }
  else a

/-- The ExamRoom camera-check handler: one addViolation call per false
sub-flag, all issued back-to-back at the same timestamp (they run in one
promise callback). -/
def examCamStep (now : Nat) (r : EnvCheckResult) (s : ExamProctorState) :
    ExamProctorState :=
  let s1 := if r.lighting = false
    then addViolation now ("Poor Lighting Detected") s else s
  let s2 := if r.singlePerson = false
    then addViolation now ("Identity Check Failed: 0 or >1 Persons") s1
    else s1
  if r.noDevices = false
    then addViolation now ("Prohibited Device Detected (Phone/Tablet)") s2
    else s2

/-- An empty anti-cheat log. -/
def emptyAntiCheatLog : AntiCheatLog :=
  { tabSwitchCount := 0, pasteCount := 0, focusLostTime := 0
    environmentViolations := [] }

/-- Swapping the two clients of a shared-store state. -/
def swapArena (s : ArenaState) : ArenaState :=
  { store := s.store, c1 := s.c2, c2 := s.c1 }

/-- txnEffect of a body that commits nothing is the identity. -/
theorem txnEffect_of_ok_none {b : TxnBody} {d : Option ChallengeSession}
    (h : b d = Except.ok none) : txnEffect b d = d := by
  simp [txnEffect, h]

/-- txnEffect of a body that writes is the written document. -/
theorem txnEffect_of_ok_some {b : TxnBody} {d : Option ChallengeSession}
    {x : ChallengeSession} (h : b d = Except.ok (some x)) :
    txnEffect b d = some x := by
  simp [txnEffect, h]

/-- The two-transaction invariant is symmetric in the two clients. -/
theorem twoTxnInv_swap {b1 b2 : TxnBody} {d0 : Option ChallengeSession}
    {s : ArenaState} (h : TwoTxnInv b1 b2 d0 s) :
    TwoTxnInv b2 b1 d0 (swapArena s) := by
  obtain ⟨f00, f10, f01, f11, sn1, sn2, h1ok, h2ok⟩ := h
  exact ⟨fun ha hb => f00 hb ha, fun ha hb => f01 hb ha, fun ha hb => f10 hb ha,
    fun ha hb => (f11 hb ha).symm, sn2, sn1, h2ok, h1ok⟩

/-- One step of the first client preserves the two-transaction invariant. -/
theorem stepFirst_preserves (b1 b2 : TxnBody) (d0 : Option ChallengeSession)
    (Hok1 : NeverThrowsOn b1 b2 d0) (s : ArenaState)
    (h : TwoTxnInv b1 b2 d0 s) :
    TwoTxnInv b1 b2 d0
      { store := (stepClient b1 s.store s.c1).1
        c1 := (stepClient b1 s.store s.c1).2
        c2 := s.c2 } := by
  obtain ⟨f00, f10, f01, f11, sn1, sn2, h1ok, h2ok⟩ := h
  cases hc1 : s.c1 with
  | idle =>
    refine ⟨?_, ?_, ?_, ?_, ?_, ?_, ?_, ?_⟩ <;>
      simp only [stepClient, ClientPhase.isDone]
    · exact fun _ hb => f00 (by rw [hc1]; rfl) hb
    · exact fun habs => absurd habs (by simp)
    · exact fun _ hb => f01 (by rw [hc1]; rfl) hb
    · exact fun habs => absurd habs (by simp)
    · intro snap ver hh
      obtain ⟨e1, e2⟩ : snap = s.store.doc ∧ ver = s.store.version := by
        exact ⟨(ClientPhase.readDone.injEq _ _ _ _).mp hh.symm |>.1,
          (ClientPhase.readDone.injEq _ _ _ _).mp hh.symm |>.2⟩
      subst e1; subst e2
      refine ⟨?_, le_refl _, fun _ => rfl⟩
      cases hd2 : s.c2.isDone with
      | false => exact Or.inl (f00 (by rw [hc1]; rfl) hd2)
      | true => exact Or.inr (f01 (by rw [hc1]; rfl) hd2)
    · exact sn2
    · intro r hh; exact absurd hh (by simp)
    · exact h2ok
  | finished r =>
    refine ⟨?_, ?_, ?_, ?_, ?_, ?_, ?_, ?_⟩ <;>
      simp only [stepClient, ClientPhase.isDone]
    · exact fun habs => absurd habs (by simp)
    · exact fun _ hb => f10 (by rw [hc1]; rfl) hb
    · exact fun habs => absurd habs (by simp)
    · exact fun _ hb => f11 (by rw [hc1]; rfl) hb
    · intro snap ver hh; exact absurd hh (by simp)
    · exact sn2
    · intro r2 hh
      have e : r = r2 := (ClientPhase.finished.injEq _ _).mp hh
      subst e; exact h1ok r hc1
    · exact h2ok
  | readDone snap ver =>
    have hsn := sn1 snap ver hc1
    have hbody : ∃ w, b1 snap = Except.ok w := by
      cases hsn.1 with
      | inl e => rw [e]; exact Hok1.1
      | inr e => rw [e]; exact Hok1.2
    obtain ⟨w, hw⟩ := hbody
    by_cases hver : ver = s.store.version
    · have hsnapdoc : snap = s.store.doc := hsn.2.2 hver
      cases w with
      | none =>
        refine ⟨?_, ?_, ?_, ?_, ?_, ?_, ?_, ?_⟩ <;>
          simp only [stepClient, hw, hver, eq_self_iff_true, if_true, ClientPhase.isDone]
        · exact fun habs => absurd habs (by simp)
        · intro _ hb
          have hdoc : s.store.doc = d0 := f00 (by rw [hc1]; rfl) hb
          have : txnEffect b1 d0 = d0 :=
            txnEffect_of_ok_none (by rw [← hdoc, ← hsnapdoc]; exact hw)
          rw [this, hdoc]
        · exact fun habs => absurd habs (by simp)
        · intro _ hb
          have hdoc : s.store.doc = txnEffect b2 d0 := f01 (by rw [hc1]; rfl) hb
          have : txnEffect b1 (txnEffect b2 d0) = txnEffect b2 d0 :=
            txnEffect_of_ok_none (by rw [← hdoc, ← hsnapdoc]; exact hw)
          exact Or.inr (by rw [this, hdoc])
        · intro snap2 ver2 hh; exact absurd hh (by simp)
        · exact sn2
        · intro r2 hh
          exact ((ClientPhase.finished.injEq _ _).mp hh).symm
        · exact h2ok
      | some d =>
        refine ⟨?_, ?_, ?_, ?_, ?_, ?_, ?_, ?_⟩ <;>
          simp only [stepClient, hw, hver, eq_self_iff_true, if_true, ClientPhase.isDone]
        · exact fun habs => absurd habs (by simp)
        · intro _ hb
          have hdoc : s.store.doc = d0 := f00 (by rw [hc1]; rfl) hb
          exact (txnEffect_of_ok_some
            (by rw [← hdoc, ← hsnapdoc]; exact hw)).symm
        · exact fun habs => absurd habs (by simp)
        · intro _ hb
          have hdoc : s.store.doc = txnEffect b2 d0 := f01 (by rw [hc1]; rfl) hb
          exact Or.inr (txnEffect_of_ok_some
            (by rw [← hdoc, ← hsnapdoc]; exact hw)).symm
        · intro snap2 ver2 hh; exact absurd hh (by simp)
        · intro snap2 ver2 hh
          have hold := sn2 snap2 ver2 hh
          refine ⟨hold.1, ?_, ?_⟩
          · exact le_trans hold.2.1 (Nat.le_succ _)
          · intro heq
            exact absurd heq (by omega)
        · intro r2 hh
          exact ((ClientPhase.finished.injEq _ _).mp hh).symm
        · exact h2ok
    · refine ⟨?_, ?_, ?_, ?_, ?_, ?_, ?_, ?_⟩ <;>
        simp only [stepClient, hw, hver, ClientPhase.isDone]
      · cases w <;> simp only [if_neg hver, ClientPhase.isDone] <;>
          exact fun _ hb => f00 (by rw [hc1]; rfl) hb
      · cases w <;> simp only [if_neg hver, ClientPhase.isDone] <;>
          exact fun habs => absurd habs (by simp)
      · cases w <;> simp only [if_neg hver, ClientPhase.isDone] <;>
          exact fun _ hb => f01 (by rw [hc1]; rfl) hb
      · cases w <;> simp only [if_neg hver, ClientPhase.isDone] <;>
          exact fun habs => absurd habs (by simp)
      · cases w <;> (try simp only [if_neg hver]) <;>
          (intro snap2 ver2 hh; exact absurd hh (by simp))
      · cases w <;> (try simp only [if_neg hver]) <;> exact sn2
      · cases w <;> (try simp only [if_neg hver]) <;>
          (intro r2 hh; exact absurd hh (by simp))
      · cases w <;> exact h2ok

/-- Any single interleaving step preserves the two-transaction invariant. -/
theorem twoTxnInv_step (b1 b2 : TxnBody) (d0 : Option ChallengeSession)
    (Hok1 : NeverThrowsOn b1 b2 d0) (Hok2 : NeverThrowsOn b2 b1 d0)
    (pick : Bool) (s : ArenaState) (h : TwoTxnInv b1 b2 d0 s) :
    TwoTxnInv b1 b2 d0 (arenaStep b1 b2 pick s) := by
  cases pick with
  | true =>
    simpa [arenaStep] using stepFirst_preserves b1 b2 d0 Hok1 s h
  | false =>
    have h2 := stepFirst_preserves b2 b1 d0 Hok2 (swapArena s) (twoTxnInv_swap h)
    have h3 := twoTxnInv_swap h2
    simpa [arenaStep, swapArena] using h3

/-- Running any schedule preserves the two-transaction invariant. -/
theorem twoTxnInv_run (b1 b2 : TxnBody) (d0 : Option ChallengeSession)
    (Hok1 : NeverThrowsOn b1 b2 d0) (Hok2 : NeverThrowsOn b2 b1 d0)
    (sched : List Bool) (s : ArenaState) (h : TwoTxnInv b1 b2 d0 s) :
    TwoTxnInv b1 b2 d0 (arenaRun b1 b2 sched s) := by
  induction sched generalizing s with
  | nil => simpa [arenaRun] using h
  | cons p l ih =>
    rw [arenaRun, List.foldl_cons]
    exact ih _ (twoTxnInv_step b1 b2 d0 Hok1 Hok2 p s h)

/-- The invariant holds of the initial state: fresh store, both clients
idle. -/
theorem twoTxnInv_init (b1 b2 : TxnBody) (d0 : Option ChallengeSession)
    (v0 : Nat) :
    TwoTxnInv b1 b2 d0
      { store := { doc := d0, version := v0 }
        c1 := ClientPhase.idle, c2 := ClientPhase.idle } := by
  refine ⟨fun _ _ => rfl, ?_, ?_, ?_, ?_, ?_, ?_, ?_⟩ <;>
    simp [ClientPhase.isDone]

/-- Serializability of two never-throwing transactions under the
optimistic store: whatever the interleaving, once both clients have
finished, both succeeded and the document equals the serial composition of
the two transaction effects in one of the two orders. -/
theorem twoTxn_serializes (b1 b2 : TxnBody) (d0 : Option ChallengeSession)
    (Hok1 : NeverThrowsOn b1 b2 d0) (Hok2 : NeverThrowsOn b2 b1 d0)
    (sched : List Bool) (v0 : Nat) (r1 r2 : Except String Unit)
    (h1 : (arenaRun b1 b2 sched
      { store := { doc := d0, version := v0 }
        c1 := ClientPhase.idle, c2 := ClientPhase.idle }).c1 =
      ClientPhase.finished r1)
    (h2 : (arenaRun b1 b2 sched
      { store := { doc := d0, version := v0 }
        c1 := ClientPhase.idle, c2 := ClientPhase.idle }).c2 =
      ClientPhase.finished r2) :
    r1 = Except.ok () ∧ r2 = Except.ok () ∧
    ((arenaRun b1 b2 sched
      { store := { doc := d0, version := v0 }
        c1 := ClientPhase.idle, c2 := ClientPhase.idle }).store.doc =
        txnEffect b2 (txnEffect b1 d0) ∨
     (arenaRun b1 b2 sched
      { store := { doc := d0, version := v0 }
        c1 := ClientPhase.idle, c2 := ClientPhase.idle }).store.doc =
        txnEffect b1 (txnEffect b2 d0)) := by
  have hinv := twoTxnInv_run b1 b2 d0 Hok1 Hok2 sched _
    (twoTxnInv_init b1 b2 d0 v0)
  obtain ⟨f00, f10, f01, f11, sn1, sn2, h1ok, h2ok⟩ := hinv
  refine ⟨h1ok r1 h1, h2ok r2 h2, ?_⟩
  exact f11 (by rw [h1]; rfl) (by rw [h2]; rfl)

/-- joinSessionBody on a waiting session not containing the user appends
the fresh participant at the end. -/
theorem joinSessionBody_of_not_mem (u : User) (s : ChallengeSession)
    (hw : s.status = SessionStatus.waiting)
    (hn : ∀ p ∈ s.participants, p.id ≠ u.id) :
    joinSessionBody u (some s) = Except.ok (some { s with
      participants := s.participants ++ [joinParticipant u] }) := by
  have hany : s.participants.any (fun p => p.id == u.id) = false := by
    simp only [List.any_eq_false]
    intro p hp
    simpa using hn p hp
  simp [joinSessionBody, hw, hany]

/-- joinSessionBody on a session already containing the user commits no
write and succeeds, whatever the session status. -/
theorem joinSessionBody_of_mem (u : User) (s : ChallengeSession)
    (hm : ∃ p ∈ s.participants, p.id = u.id) :
    joinSessionBody u (some s) = Except.ok none := by
  have hany : s.participants.any (fun p => p.id == u.id) = true := by
    obtain ⟨p, hp, he⟩ := hm
    exact List.any_eq_true.mpr ⟨p, hp, by simpa using he⟩
  simp [joinSessionBody, hany]

/-- Claim C2.  For every session in status waiting and every two distinct users
u1 and u2 neither of whom is a participant yet, when both run joinSession
concurrently against the shared store (their transactions interleaved
under an arbitrary schedule), once both transactions have finished both
succeeded, both users are present in participants, and the participants
list has grown by exactly 2: neither append is lost to a write race. -/
theorem joinSession_concurrent_both_present
    (s : ChallengeSession) (u1 u2 : User) (v0 : Nat) (sched : List Bool)
    (r1 r2 : Except String Unit) (fin : ArenaState)
    (hw : s.status = SessionStatus.waiting)
    (hne : u1.id ≠ u2.id)
    (h1 : ∀ p ∈ s.participants, p.id ≠ u1.id)
    (h2 : ∀ p ∈ s.participants, p.id ≠ u2.id)
    (hfin : arenaRun (joinSessionBody u1) (joinSessionBody u2) sched
      { store := { doc := some s, version := v0 }
        c1 := ClientPhase.idle, c2 := ClientPhase.idle } = fin)
    (hc1 : fin.c1 = ClientPhase.finished r1)
    (hc2 : fin.c2 = ClientPhase.finished r2) :
    r1 = Except.ok () ∧ r2 = Except.ok () ∧
    ∃ s9, fin.store.doc = some s9 ∧
      (∃ p ∈ s9.participants, p.id = u1.id) ∧
      (∃ p ∈ s9.participants, p.id = u2.id) ∧
      s9.participants.length = s.participants.length + 2 := by
  subst hfin
  have e1 : joinSessionBody u1 (some s) = Except.ok (some { s with
      participants := s.participants ++ [joinParticipant u1] }) :=
    joinSessionBody_of_not_mem u1 s hw h1
  have e2 : joinSessionBody u2 (some s) = Except.ok (some { s with
      participants := s.participants ++ [joinParticipant u2] }) :=
    joinSessionBody_of_not_mem u2 s hw h2
  have hx2 : txnEffect (joinSessionBody u2) (some s) = some { s with
      participants := s.participants ++ [joinParticipant u2] } :=
    txnEffect_of_ok_some e2
  have hx1 : txnEffect (joinSessionBody u1) (some s) = some { s with
      participants := s.participants ++ [joinParticipant u1] } :=
    txnEffect_of_ok_some e1
  have hn21 : ∀ p ∈ s.participants ++ [joinParticipant u2], p.id ≠ u1.id := by
    intro p hp
    rcases List.mem_append.mp hp with hin | hone
    · exact h1 p hin
    · have : p = joinParticipant u2 := by simpa using hone
      rw [this]
      exact Ne.symm hne
  have hn12 : ∀ p ∈ s.participants ++ [joinParticipant u1], p.id ≠ u2.id := by
    intro p hp
    rcases List.mem_append.mp hp with hin | hone
    · exact h2 p hin
    · have : p = joinParticipant u1 := by simpa using hone
      rw [this]
      exact hne
  have e12 : joinSessionBody u2 (some { s with
      participants := s.participants ++ [joinParticipant u1] }) =
      Except.ok (some { s with participants :=
        (s.participants ++ [joinParticipant u1]) ++ [joinParticipant u2] }) :=
    joinSessionBody_of_not_mem u2 _ hw hn12
  have e21 : joinSessionBody u1 (some { s with
      participants := s.participants ++ [joinParticipant u2] }) =
      Except.ok (some { s with participants :=
        (s.participants ++ [joinParticipant u2]) ++ [joinParticipant u1] }) :=
    joinSessionBody_of_not_mem u1 _ hw hn21
  have Hok1 : NeverThrowsOn (joinSessionBody u1) (joinSessionBody u2)
      (some s) := by
    refine ⟨⟨_, e1⟩, ?_⟩
    rw [hx2]
    exact ⟨_, e21⟩
  have Hok2 : NeverThrowsOn (joinSessionBody u2) (joinSessionBody u1)
      (some s) := by
    refine ⟨⟨_, e2⟩, ?_⟩
    rw [hx1]
    exact ⟨_, e12⟩
  obtain ⟨hr1, hr2, hdoc⟩ := twoTxn_serializes (joinSessionBody u1)
    (joinSessionBody u2) (some s) Hok1 Hok2 sched v0 r1 r2 hc1 hc2
  refine ⟨hr1, hr2, ?_⟩
  cases hdoc with
  | inl hd =>
    rw [hx1, txnEffect_of_ok_some e12] at hd
    refine ⟨_, hd, ?_, ?_, ?_⟩
    · exact ⟨joinParticipant u1, by simp, rfl⟩
    · exact ⟨joinParticipant u2, by simp, rfl⟩
    · simp
  | inr hd =>
    rw [hx2, txnEffect_of_ok_some e21] at hd
    refine ⟨_, hd, ?_, ?_, ?_⟩
    · exact ⟨joinParticipant u1, by simp, rfl⟩
    · exact ⟨joinParticipant u2, by simp, rfl⟩
    · simp

/-- Witness for C2: a host session, two joiners, and a schedule in which
both clients read the same snapshot, the first commits, the second hits
the version conflict, retries from a fresh read and then commits. -/
theorem joinSession_concurrent_both_present_witness :
    (Except.ok () : Except String Unit) = Except.ok () ∧
    (Except.ok () : Except String Unit) = Except.ok () ∧
    ∃ s9, (arenaRun (joinSessionBody sampleU1) (joinSessionBody sampleU2)
        sampleSchedule sampleInitArena).store.doc = some s9 ∧
      (∃ p ∈ s9.participants, p.id = sampleU1.id) ∧
      (∃ p ∈ s9.participants, p.id = sampleU2.id) ∧
      s9.participants.length = sampleSession.participants.length + 2 :=
  joinSession_concurrent_both_present sampleSession sampleU1 sampleU2
    0 sampleSchedule (Except.ok ()) (Except.ok ()) _
    (by decide) (by decide) (by decide) (by decide) rfl (by decide) (by decide)

/-- Claim C4.  joinSession is idempotent per user: when the user is already a
participant, the transaction succeeds (service result success with no
message), commits no write, leaves the document unchanged, and preserves
the exactly-one-participant-per-id invariant; the hypothesis places no
constraint on the session status, so the re-join succeeds in waiting,
active and finished sessions alike. -/
theorem joinSession_idempotent_per_user (s : ChallengeSession) (u : User)
    (hm : ∃ p ∈ s.participants, p.id = u.id) :
    joinSessionBody u (some s) = Except.ok none ∧
    joinSessionService u (some s) = { success := true, message := none } ∧
    txnEffect (joinSessionBody u) (some s) = some s ∧
    (s.participants.countP (fun p => p.id == u.id) = 1 →
      ∀ s2, txnEffect (joinSessionBody u) (some s) = some s2 →
        s2.participants.countP (fun p => p.id == u.id) = 1) := by
  have hbody := joinSessionBody_of_mem u s hm
  refine ⟨hbody, ?_, txnEffect_of_ok_none hbody, ?_⟩
  · simp [joinSessionService, hbody]
  · intro hcount s2 he
    rw [txnEffect_of_ok_none hbody] at he
    cases he
    exact hcount

/-- Witness for C4: the host re-joins an already active session. -/
theorem joinSession_idempotent_per_user_witness :
    joinSessionBody sampleHost (some sampleActiveSession) = Except.ok none ∧
    joinSessionService sampleHost (some sampleActiveSession) =
      { success := true, message := none } ∧
    txnEffect (joinSessionBody sampleHost) (some sampleActiveSession) =
      some sampleActiveSession ∧
    (sampleActiveSession.participants.countP
        (fun p => p.id == sampleHost.id) = 1 →
      ∀ s2, txnEffect (joinSessionBody sampleHost)
          (some sampleActiveSession) = some s2 →
        s2.participants.countP (fun p => p.id == sampleHost.id) = 1) :=
  joinSession_idempotent_per_user sampleActiveSession sampleHost (by decide)

/-- Counterexample for C3 as stated: startSession on a finished session is
not a no-op and is not rejected: it writes the status back to active. -/
theorem startSession_regresses_finished :
    Option.map (fun d => d.status)
      (startSessionMerge 1234 (some sampleFinishedSession)) =
      some SessionStatus.active ∧
    sampleFinishedSession.status = SessionStatus.finished ∧
    SessionStatus.active ≠ SessionStatus.finished := by
  refine ⟨rfl, rfl, by decide⟩

/-- Claim C3 amended.  startSession is an unconditional merge-update: whatever
the current status, it sets status to active and overwrites startTime (and
changes nothing else); on a missing document it is a no-op.  From waiting
this is the waiting-to-active transition and from active it is the
idempotent overwrite of startTime, but from finished it regresses the
status back to active: the code has no guard. -/
theorem startSession_unconditional_merge (s : ChallengeSession) (now : Nat) :
    startSessionMerge now (some s) = some { s with
      status := SessionStatus.active, startTime := some now } ∧
    startSessionMerge now none = none := by
  exact ⟨rfl, rfl⟩

/-- Claim C8.  leaveSession removes exactly the participant whose id matches:
on an absent session it commits nothing; on a present session it writes
back the list with every participant of that id removed, all other
participants (in order) and all other fields unchanged, and it is a
value-level no-op when the participant is absent; the transaction never
deletes the document, so after the sole participant leaves, the
subscription still delivers a non-null document with an empty
participants list. -/
theorem leaveSession_removes_only_matching (s : ChallengeSession)
    (uid : String) :
    leaveSessionBody uid none = Except.ok none ∧
    (∃ s2, leaveSessionBody uid (some s) = Except.ok (some s2) ∧
      s2.participants = s.participants.filter (fun p => p.id ≠ uid) ∧
      s2.id = s.id ∧ s2.hostId = s.hostId ∧ s2.domain = s.domain ∧
      s2.status = s.status ∧ s2.taskDescription = s.taskDescription ∧
      s2.checkpoints = s.checkpoints ∧ s2.startTime = s.startTime ∧
      (∀ p ∈ s2.participants, p.id ≠ uid) ∧
      (∀ p ∈ s.participants, p.id ≠ uid → p ∈ s2.participants) ∧
      ((∀ p ∈ s.participants, p.id ≠ uid) →
        s2.participants = s.participants)) ∧
    txnEffect (leaveSessionBody uid) (some s) ≠ none ∧
    (∀ q, s.participants = [q] → q.id = uid →
      ∃ s2, txnEffect (leaveSessionBody uid) (some s) = some s2 ∧
        s2.participants = [] ∧
        subscriptionDelivery
          (txnEffect (leaveSessionBody uid) (some s)) = some s2) := by
  refine ⟨rfl, ?_, ?_, ?_⟩
  · refine ⟨_, rfl, rfl, rfl, rfl, rfl, rfl, rfl, rfl, rfl, ?_, ?_, ?_⟩
    · intro p hp
      have := List.of_mem_filter hp
      simpa using this
    · intro p hp hne
      exact List.mem_filter.mpr ⟨hp, by simpa using hne⟩
    · intro hall
      exact List.filter_eq_self.mpr (fun p hp => by simpa using hall p hp)
  · simp [txnEffect, leaveSessionBody]
  · intro q hq hqid
    refine ⟨_, rfl, ?_, ?_⟩
    · show ({ s with participants :=
        s.participants.filter (fun p => p.id ≠ uid) } :
          ChallengeSession).participants = []
      simp [hq, hqid]
    · rfl

/-- Witness for C8: the sole host leaves the sample session; the store
still holds a (non-null) document with an empty participants list. -/
theorem leaveSession_removes_only_matching_witness :
    ∃ s2, txnEffect (leaveSessionBody ("H1")) (some sampleSession) =
        some s2 ∧
      s2.participants = [] ∧
      subscriptionDelivery
        (txnEffect (leaveSessionBody ("H1")) (some sampleSession)) =
        some s2 :=
  (leaveSession_removes_only_matching sampleSession ("H1")).2.2.2
    (hostParticipant sampleHost) rfl rfl

/-- Claim C5.  updateProgress rewrites only the progress and status of the
matching participant: the transaction body maps the participants list through the
pointwise progressUpdate rewrite (which leaves every participant of a
different id unchanged and keeps list length and order), touches no other
session field — and two concurrent updateProgress transactions for two
distinct user ids, interleaved against the shared store, serialize so that
the final document carries both updates: the participant matching the
first id holds the first update, the participant matching the second id
holds the second, everyone else is unchanged: neither client's write
clobbers the other's. -/
theorem updateProgress_frame_and_isolation (s : ChallengeSession)
    (uid1 uid2 : String) (pr1 pr2 : Int) (st1 st2 : ParticipantStatus)
    (v0 : Nat) (sched : List Bool) (r1 r2 : Except String Unit)
    (fin : ArenaState)
    (hne : uid1 ≠ uid2)
    (hfin : arenaRun (updateProgressBody uid1 pr1 st1)
      (updateProgressBody uid2 pr2 st2) sched
      { store := { doc := some s, version := v0 }
        c1 := ClientPhase.idle, c2 := ClientPhase.idle } = fin)
    (hc1 : fin.c1 = ClientPhase.finished r1)
    (hc2 : fin.c2 = ClientPhase.finished r2) :
    (∃ s2, updateProgressBody uid1 pr1 st1 (some s) =
        Except.ok (some s2) ∧
      s2.participants = s.participants.map (progressUpdate uid1 pr1 st1) ∧
      s2.id = s.id ∧ s2.hostId = s.hostId ∧ s2.domain = s.domain ∧
      s2.status = s.status ∧ s2.taskDescription = s.taskDescription ∧
      s2.checkpoints = s.checkpoints ∧ s2.startTime = s.startTime ∧
      s2.participants.length = s.participants.length) ∧
    (∀ p, p.id ≠ uid1 → progressUpdate uid1 pr1 st1 p = p) ∧
    (∀ p, p.id = uid1 → progressUpdate uid1 pr1 st1 p =
      { p with progress := pr1, status := st1 }) ∧
    r1 = Except.ok () ∧ r2 = Except.ok () ∧
    (∃ s3, fin.store.doc = some s3 ∧
      s3.participants = s.participants.map (fun p =>
        if p.id = uid1 then { p with progress := pr1, status := st1 }
        else if p.id = uid2 then { p with progress := pr2, status := st2 }
        else p) ∧
      s3.id = s.id ∧ s3.hostId = s.hostId ∧ s3.domain = s.domain ∧
      s3.status = s.status ∧ s3.taskDescription = s.taskDescription ∧
      s3.checkpoints = s.checkpoints ∧ s3.startTime = s.startTime) := by
  subst hfin
  have hup : ∀ (uid : String) (pr : Int) (st : ParticipantStatus)
      (d : ChallengeSession), updateProgressBody uid pr st (some d) =
      Except.ok (some { d with
        participants := d.participants.map (progressUpdate uid pr st) }) := by
    intro uid pr st d
    rfl
  refine ⟨⟨_, hup uid1 pr1 st1 s, rfl, rfl, rfl, rfl, rfl, rfl, rfl, rfl,
    by simp⟩, ?_, ?_, ?_⟩
  · intro p hp
    simp [progressUpdate, hp]
  · intro p hp
    simp [progressUpdate, hp]
  have Hok1 : NeverThrowsOn (updateProgressBody uid1 pr1 st1)
      (updateProgressBody uid2 pr2 st2) (some s) := by
    constructor
    · exact ⟨_, hup uid1 pr1 st1 s⟩
    · rw [txnEffect_of_ok_some (hup uid2 pr2 st2 s)]
      exact ⟨_, hup uid1 pr1 st1 _⟩
  have Hok2 : NeverThrowsOn (updateProgressBody uid2 pr2 st2)
      (updateProgressBody uid1 pr1 st1) (some s) := by
    constructor
    · exact ⟨_, hup uid2 pr2 st2 s⟩
    · rw [txnEffect_of_ok_some (hup uid1 pr1 st1 s)]
      exact ⟨_, hup uid2 pr2 st2 _⟩
  obtain ⟨hr1, hr2, hdoc⟩ := twoTxn_serializes _ _ (some s) Hok1 Hok2
    sched v0 r1 r2 hc1 hc2
  refine ⟨hr1, hr2, ?_⟩
  have hcombined : ∀ p : ChallengeParticipant,
      progressUpdate uid1 pr1 st1 (progressUpdate uid2 pr2 st2 p) =
        (if p.id = uid1 then { p with progress := pr1, status := st1 }
         else if p.id = uid2 then { p with progress := pr2, status := st2 }
         else p) ∧
      progressUpdate uid2 pr2 st2 (progressUpdate uid1 pr1 st1 p) =
        (if p.id = uid1 then { p with progress := pr1, status := st1 }
         else if p.id = uid2 then { p with progress := pr2, status := st2 }
         else p) := by
    intro p
    by_cases h1 : p.id = uid1
    · have h2 : p.id ≠ uid2 := by rw [h1]; exact hne
      constructor
      · simp [progressUpdate, h1, h2, hne]
      · simp [progressUpdate, h1, h2, hne]
    · by_cases h2 : p.id = uid2
      · constructor
        · simp [progressUpdate, h1, h2, hne, Ne.symm hne]
        · simp [progressUpdate, h1, h2, hne, Ne.symm hne]
      · constructor
        · simp [progressUpdate, h1, h2, hne]
        · simp [progressUpdate, h1, h2, hne]
  cases hdoc with
  | inl hd =>
    rw [txnEffect_of_ok_some (hup uid1 pr1 st1 s),
      txnEffect_of_ok_some (hup uid2 pr2 st2 _)] at hd
    refine ⟨_, hd, ?_, rfl, rfl, rfl, rfl, rfl, rfl, rfl⟩
    show (s.participants.map (progressUpdate uid1 pr1 st1)).map
      (progressUpdate uid2 pr2 st2) = _
    rw [List.map_map]
    exact List.map_congr_left (fun p _ => (hcombined p).2)
  | inr hd =>
    rw [txnEffect_of_ok_some (hup uid2 pr2 st2 s),
      txnEffect_of_ok_some (hup uid1 pr1 st1 _)] at hd
    refine ⟨_, hd, ?_, rfl, rfl, rfl, rfl, rfl, rfl, rfl⟩
    show (s.participants.map (progressUpdate uid2 pr2 st2)).map
      (progressUpdate uid1 pr1 st1) = _
    rw [List.map_map]
    exact List.map_congr_left (fun p _ => (hcombined p).1)

/-- Witness for C5: host and joiner update their progress concurrently
under the conflict-retry schedule; the final document carries both
updates. -/
theorem updateProgress_frame_and_isolation_witness :
    ∃ s3, (arenaRun (updateProgressBody ("H1") 100 ParticipantStatus.finished)
        (updateProgressBody ("U1") 50 ParticipantStatus.coding)
        sampleSchedule
        { store := { doc := some sampleRaceSession, version := 0 },
          c1 := ClientPhase.idle,
          c2 := ClientPhase.idle }).store.doc = some s3 ∧
      s3.participants = sampleRaceSession.participants.map (fun p =>
        if p.id = "H1" then
          { p with progress := 100, status := ParticipantStatus.finished }
        else if p.id = "U1" then
          { p with progress := 50, status := ParticipantStatus.coding }
        else p) ∧
      s3.id = sampleRaceSession.id ∧ s3.hostId = sampleRaceSession.hostId ∧
      s3.domain = sampleRaceSession.domain ∧
      s3.status = sampleRaceSession.status ∧
      s3.taskDescription = sampleRaceSession.taskDescription ∧
      s3.checkpoints = sampleRaceSession.checkpoints ∧
      s3.startTime = sampleRaceSession.startTime :=
  (updateProgress_frame_and_isolation sampleRaceSession ("H1") ("U1")
    100 50 ParticipantStatus.finished ParticipantStatus.coding
    0 sampleSchedule (Except.ok ()) (Except.ok ()) _
    (by decide) rfl (by decide) (by decide)).2.2.2.2.2

/-- Counterexample for C9 as stated: with the default budget (retries 3,
delay 1000 ms) a call that fails every time is attempted 4 times, not up
to 3, with delays 1 s, 2 s, 4 s between attempts. -/
theorem withRetry_default_not_three_attempts :
    (withRetryRun (fun _ => (Except.error () : Except Unit Unit))
      3 1000 0).2.1 = 4 ∧
    (withRetryRun (fun _ => (Except.error () : Except Unit Unit))
      3 1000 0).2.2 = [1000, 2000, 4000] ∧
    (4 : Nat) ≠ 3 := by
  refine ⟨rfl, rfl, by decide⟩

/-- Claim C9 amended.  Every adapter call is wrapped in retry with exponential
backoff: with the default budget a call failing every time is attempted 4
times in total (the initial try plus 3 retries) with the delay doubling
from 1 s (1 s, 2 s, 4 s); the environment-snapshot analysis instead uses
a single retry with a fixed longer 3 s delay, so 2 attempts in total. -/
theorem withRetry_budgets (α : Type) (fn : Nat → Except Unit α)
    (hfail : ∀ n, fn n = Except.error ()) :
    withRetryRun fn 3 1000 0 = (Except.error (), 4, [1000, 2000, 4000]) ∧
    withRetryRun fn 1 3000 0 = (Except.error (), 2, [3000]) := by
  constructor
  · simp [withRetryRun, hfail]
  · simp [withRetryRun, hfail]

/-- Witness for C9: the always-failing oracle evaluated at both budgets. -/
theorem withRetry_budgets_witness :
    withRetryRun (fun _ => (Except.error () : Except Unit Unit)) 3 1000 0 =
      (Except.error (), 4, [1000, 2000, 4000]) ∧
    withRetryRun (fun _ => (Except.error () : Except Unit Unit)) 1 3000 0 =
      (Except.error (), 2, [3000]) :=
  withRetry_budgets Unit (fun _ => Except.error ()) (fun _ => rfl)

/-- Claim C7.  When scenario generation fails on every attempt (the retried
call throws after its budget), handleCreatePrivateSession still publishes
the fixed deterministic fallback scenario (the fallback task text plus
the fixed 3-checkpoint list) and generatedTaskReady becomes true, and the
publication merge writes exactly those two fields onto the session
document, so the lobby is never stuck and the start action is enabled. -/
theorem createSession_fallback_on_generation_failure
    (attempts : Nat → Except Unit ChallengeScenario) (domain : String)
    (s : ChallengeSession)
    (hfail : ∀ n, attempts n = Except.error ()) :
    generateChallengeScenario attempts = Except.error () ∧
    handleCreatePrivateSession (generateChallengeScenario attempts) domain =
      { publishedScenario := some
          { taskDescription := fallbackTask domain
            checkpoints := fallbackCheckpoints }
        generatedTaskReady := true
        isGeneratingTask := false } ∧
    fallbackCheckpoints.length = 3 ∧
    setSessionScenarioMerge (fallbackTask domain) fallbackCheckpoints
      (some s) = some { s with
        taskDescription := some (fallbackTask domain)
        checkpoints := some fallbackCheckpoints } := by
  have hg : generateChallengeScenario attempts = Except.error () := by
    simp [generateChallengeScenario, withRetryRun, hfail]
  refine ⟨hg, ?_, rfl, rfl⟩
  rw [hg]
  rfl

/-- Witness for C7: an adapter throwing on every attempt, over the sample
session. -/
theorem createSession_fallback_on_generation_failure_witness :
    generateChallengeScenario (fun _ => Except.error ()) =
      Except.error () ∧
    handleCreatePrivateSession
      (generateChallengeScenario (fun _ => Except.error ()))
      ("Algorithms") =
      { publishedScenario := some
          { taskDescription := fallbackTask ("Algorithms")
            checkpoints := fallbackCheckpoints }
        generatedTaskReady := true
        isGeneratingTask := false } ∧
    fallbackCheckpoints.length = 3 ∧
    setSessionScenarioMerge (fallbackTask ("Algorithms"))
      fallbackCheckpoints (some sampleSession) = some { sampleSession with
        taskDescription := some (fallbackTask ("Algorithms"))
        checkpoints := some fallbackCheckpoints } :=
  createSession_fallback_on_generation_failure (fun _ => Except.error ())
    ("Algorithms") sampleSession (fun _ => rfl)

/-- Claim C6.  The Trial verdict is a pure function of the accumulated counts
against the thresholds: the score is forced to the zero sentinel with the
concatenated reasons exactly when pasteCount exceeds 0, or tabSwitchCount
exceeds 2, or focusLostTime exceeds 5000 ms, or more than 2 environment
violations were accumulated; otherwise the AI score and feedback stand,
whatever they are. -/
theorem trial_verdict_thresholds (a : AntiCheatLog)
    (aiScore : SkillDNAScore) (aiFeedback : String) :
    ((a.pasteCount > 0 ∨ a.tabSwitchCount > 2 ∨ a.focusLostTime > 5000 ∨
        a.environmentViolations.length > 2) →
      trialHandleSubmit a aiScore aiFeedback =
        { score := zeroSkillScore
          feedback := "VERIFICATION REJECTED: " ++
            String.intercalate (" ") (trialViolationReasons a) }) ∧
    (¬ (a.pasteCount > 0 ∨ a.tabSwitchCount > 2 ∨ a.focusLostTime > 5000 ∨
        a.environmentViolations.length > 2) →
      trialHandleSubmit a aiScore aiFeedback =
        { score := aiScore, feedback := aiFeedback }) := by
  constructor
  · intro hc
    have hlen : (trialViolationReasons a).length > 0 := by
      rcases hc with h | h | h | h
      · have hm : ("Clipboard misuse detected.") ∈ trialViolationReasons a :=
          by simp [trialViolationReasons, MAX_PASTES, h]
        exact List.length_pos_of_mem hm
      · have hm : ("Excessive window switching.") ∈ trialViolationReasons a :=
          by simp [trialViolationReasons, MAX_TAB_SWITCHES, h]
        exact List.length_pos_of_mem hm
      · have hm : ("Extended absence.") ∈ trialViolationReasons a :=
          by simp [trialViolationReasons, MAX_FOCUS_LOST_TIME, h]
        exact List.length_pos_of_mem hm
      · have hm : ("Persistent environment security violations.") ∈
            trialViolationReasons a :=
          by simp [trialViolationReasons, h]
        exact List.length_pos_of_mem hm
    simp only [trialHandleSubmit]
    rw [if_pos hlen]
  · intro hc
    push_neg at hc
    obtain ⟨hc1, hc2, hc3, hc4⟩ := hc
    have hnil : trialViolationReasons a = [] := by
      simp only [trialViolationReasons]
      rw [if_neg (by simp only [MAX_PASTES]; omega),
        if_neg (by simp only [MAX_TAB_SWITCHES]; omega),
        if_neg (by simp only [MAX_FOCUS_LOST_TIME]; omega),
        if_neg (by omega)]
      rfl
    simp [trialHandleSubmit, hnil]

/-- Witness for C6: exactly 3 tab switches against the threshold of 2
yield the void verdict even though the AI graded the work at 95. -/
theorem trial_verdict_thresholds_witness :
    trialHandleSubmit
      { tabSwitchCount := 3, pasteCount := 0, focusLostTime := 0
        environmentViolations := [] }
      { problemSolving := 95, executionSpeed := 95, conceptualDepth := 95
        aiLeverage := 95, riskAwareness := 95, average := 95 }
      ("Excellent work") =
      { score := zeroSkillScore
        feedback := "VERIFICATION REJECTED: " ++
          String.intercalate (" ") (trialViolationReasons
            { tabSwitchCount := 3, pasteCount := 0, focusLostTime := 0
              environmentViolations := [] }) } :=
  (trial_verdict_thresholds
    { tabSwitchCount := 3, pasteCount := 0, focusLostTime := 0
      environmentViolations := [] }
    { problemSolving := 95, executionSpeed := 95, conceptualDepth := 95
      aiLeverage := 95, riskAwareness := 95, average := 95 }
    ("Excellent work")).1 (Or.inr (Or.inl (by decide)))

/-- A section being active means the exam has not failed. -/
theorem examSectionActive_ne_failed (st : ExamStatus)
    (h : examSectionActive st = true) : st ≠ ExamStatus.failed := by
  cases st <;> simp_all [examSectionActive]

/-- A monitored event spaced at least 2 s after the last recorded
violation, while a section is active and the count stays within the
tolerance, is recorded without changing the status. -/
theorem examEvent_records (st : ExamStatus) (vs : List String)
    (last now : Nat) (msg : String)
    (hact : examSectionActive st = true)
    (hgap : last + 2000 ≤ now)
    (hlen : (vs ++ [msg]).length ≤ MAX_VIOLATIONS) :
    examEvent { status := st, violations := vs, lastViolation := last }
      (now, msg) =
      { status := st, violations := vs ++ [msg], lastViolation := now } := by
  have hnd : ¬ (now - last < 2000) := by omega
  have hlen2 : vs.length + 1 ≤ MAX_VIOLATIONS := by simpa using hlen
  have hns : ¬ (MAX_VIOLATIONS < vs.length + 1) := by omega
  simp [examEvent, addViolation, hact, hnd, hns]

/-- A monitored event spaced at least 2 s after the last recorded
violation, while a section is active, whose recording pushes the count
beyond the tolerance, flips the status to failed. -/
theorem examEvent_fails (st : ExamStatus) (vs : List String)
    (last now : Nat) (msg : String)
    (hact : examSectionActive st = true)
    (hgap : last + 2000 ≤ now)
    (hlen : (vs ++ [msg]).length > MAX_VIOLATIONS) :
    examEvent { status := st, violations := vs, lastViolation := last }
      (now, msg) =
      { status := ExamStatus.failed, violations := vs ++ [msg]
        lastViolation := now } := by
  have hnd : ¬ (now - last < 2000) := by omega
  have hlen2 : MAX_VIOLATIONS < vs.length + 1 := by simpa using hlen
  simp [examEvent, addViolation, hact, hnd, hlen2]

/-- Claim C1 amended.  In the Exam flow with MAX_VIOLATIONS set to 5, for every
sequence of recorded (2 s-spaced) violation events starting from an
active section with an empty log: after the 5th recorded violation the
status is still the active section (not failed), and the status flips to
the terminal failed state at the moment the 6th violation is recorded
(the count is checked on every new violation, when it exceeds the
tolerance of 5); once failed, every further event is discarded because
the listeners are detached. -/
theorem exam_fails_on_sixth_recorded_violation (s0 : ExamProctorState)
    (t1 t2 t3 t4 t5 t6 : Nat) (m1 m2 m3 m4 m5 m6 : String)
    (hs : examSectionActive s0.status = true)
    (hv : s0.violations = [])
    (h1 : s0.lastViolation + 2000 ≤ t1) (h2 : t1 + 2000 ≤ t2)
    (h3 : t2 + 2000 ≤ t3) (h4 : t3 + 2000 ≤ t4)
    (h5 : t4 + 2000 ≤ t5) (h6 : t5 + 2000 ≤ t6) :
    (runExamEvents s0
      [(t1, m1), (t2, m2), (t3, m3), (t4, m4), (t5, m5)]).status =
      s0.status ∧
    (runExamEvents s0
      [(t1, m1), (t2, m2), (t3, m3), (t4, m4), (t5, m5)]).violations =
      [m1, m2, m3, m4, m5] ∧
    s0.status ≠ ExamStatus.failed ∧
    (runExamEvents s0
      [(t1, m1), (t2, m2), (t3, m3), (t4, m4), (t5, m5), (t6, m6)]).status =
      ExamStatus.failed ∧
    (runExamEvents s0
      [(t1, m1), (t2, m2), (t3, m3), (t4, m4), (t5, m5), (t6, m6)]).violations
      = [m1, m2, m3, m4, m5, m6] ∧
    (∀ e s, s.status = ExamStatus.failed → examEvent s e = s) := by
  obtain ⟨st0, vs0, l0⟩ := s0
  simp only at hs hv h1
  subst hv
  have e1 := examEvent_records st0 [] l0 t1 m1 hs h1
    (by simp [MAX_VIOLATIONS])
  have e2 := examEvent_records st0 [m1] t1 t2 m2 hs h2
    (by simp [MAX_VIOLATIONS])
  have e3 := examEvent_records st0 [m1, m2] t2 t3 m3 hs h3
    (by simp [MAX_VIOLATIONS])
  have e4 := examEvent_records st0 [m1, m2, m3] t3 t4 m4 hs h4
    (by simp [MAX_VIOLATIONS])
  have e5 := examEvent_records st0 [m1, m2, m3, m4] t4 t5 m5 hs h5
    (by simp [MAX_VIOLATIONS])
  have e6 := examEvent_fails st0 [m1, m2, m3, m4, m5] t5 t6 m6 hs h6
    (by simp [MAX_VIOLATIONS])
  simp only [List.nil_append] at e1
  simp only [List.cons_append, List.nil_append] at e2 e3 e4 e5 e6
  have run5 : runExamEvents
      { status := st0, violations := [], lastViolation := l0 }
      [(t1, m1), (t2, m2), (t3, m3), (t4, m4), (t5, m5)] =
      { status := st0, violations := [m1, m2, m3, m4, m5],
        lastViolation := t5 } := by
    simp only [runExamEvents, List.foldl_cons, List.foldl_nil]
    rw [e1, e2, e3, e4, e5]
  have run6 : runExamEvents
      { status := st0, violations := [], lastViolation := l0 }
      [(t1, m1), (t2, m2), (t3, m3), (t4, m4), (t5, m5), (t6, m6)] =
      { status := ExamStatus.failed,
        violations := [m1, m2, m3, m4, m5, m6],
        lastViolation := t6 } := by
    simp only [runExamEvents, List.foldl_cons, List.foldl_nil]
    rw [e1, e2, e3, e4, e5, e6]
  refine ⟨by rw [run5], by rw [run5],
    examSectionActive_ne_failed st0 hs, by rw [run6], by rw [run6], ?_⟩
  intro e s hf
  simp [examEvent, hf, examSectionActive]

/-- Counterexample for C1 as stated: five distinct recorded violations
(each spaced beyond the 2 s dampening window) leave the exam in the mcq
section; the status has not transitioned to failed on the 5th event. -/
theorem exam_not_failed_after_fifth_violation :
    (runExamEvents initialExamProctorState
      [(2000, "Focus Lost: Clicked outside exam window"),
       (4000, "Tab Hidden / Minimized"),
       (6000, "Copy Attempt Detected"),
       (8000, "Paste Attempt Detected"),
       (10000, "Poor Lighting Detected")]).violations.length = 5 ∧
    (runExamEvents initialExamProctorState
      [(2000, "Focus Lost: Clicked outside exam window"),
       (4000, "Tab Hidden / Minimized"),
       (6000, "Copy Attempt Detected"),
       (8000, "Paste Attempt Detected"),
       (10000, "Poor Lighting Detected")]).status = ExamStatus.mcq ∧
    ExamStatus.mcq ≠ ExamStatus.failed := by
  refine ⟨by decide, by decide, by decide⟩

/-- Witness for C1 amended: six concrete spaced violations from the mcq
section. -/
theorem exam_fails_on_sixth_recorded_violation_witness :
    (runExamEvents initialExamProctorState
      [(2000, "A"), (4000, "B"), (6000, "C"), (8000, "D"),
       (10000, "E")]).status = initialExamProctorState.status ∧
    (runExamEvents initialExamProctorState
      [(2000, "A"), (4000, "B"), (6000, "C"), (8000, "D"),
       (10000, "E")]).violations = ["A", "B", "C", "D", "E"] ∧
    initialExamProctorState.status ≠ ExamStatus.failed ∧
    (runExamEvents initialExamProctorState
      [(2000, "A"), (4000, "B"), (6000, "C"), (8000, "D"), (10000, "E"),
       (12000, "F")]).status = ExamStatus.failed ∧
    (runExamEvents initialExamProctorState
      [(2000, "A"), (4000, "B"), (6000, "C"), (8000, "D"), (10000, "E"),
       (12000, "F")]).violations = ["A", "B", "C", "D", "E", "F"] ∧
    (∀ e s, s.status = ExamStatus.failed → examEvent s e = s) :=
  exam_fails_on_sixth_recorded_violation initialExamProctorState
    2000 4000 6000 8000 10000 12000 ("A") ("B") ("C") ("D") ("E") ("F")
    (by decide) rfl (by decide) (by decide) (by decide) (by decide)
    (by decide) (by decide)

/-- Counterexample for C10 as stated: when the adapter is unreachable the
snapshot result has all three sub-flags false, yet the TrialRoom call
site appends exactly one environment violation (the feedback string), not
one per false sub-flag (which would be three). -/
theorem envFailure_records_one_not_three :
    (analyzeEnvironmentSnapshot (Except.error ())).lighting = false ∧
    (analyzeEnvironmentSnapshot (Except.error ())).singlePerson = false ∧
    (analyzeEnvironmentSnapshot (Except.error ())).noDevices = false ∧
    (trialProctorStep (analyzeEnvironmentSnapshot (Except.error ()))
      emptyAntiCheatLog).environmentViolations.length = 1 ∧
    (1 : Nat) ≠ 3 := by
  refine ⟨rfl, rfl, rfl, by decide, by decide⟩

/-- Claim C10 amended.  analyzeEnvironmentSnapshot never throws: when the
underlying call fails on every attempt it makes 2 attempts (the single
3 s retry) and resolves with the fixed all-false result carrying the
error feedback string; consequently every periodic proctoring check run
while the adapter is unreachable records environment violations against
the user even though no real violation occurred — the TrialRoom heartbeat
appends exactly one entry (the feedback string) per failed snapshot, and
the ExamRoom camera check issues one addViolation per false sub-flag but
its 2-second dampening records only the first of the three. -/
theorem envFailure_fallback_and_recording
    (attempts : Nat → Except Unit EnvCheckResult) (a : AntiCheatLog)
    (s : ExamProctorState) (now : Nat)
    (hfail : ∀ n, attempts n = Except.error ())
    (hdamp : s.lastViolation + 2000 ≤ now) :
    analyzeEnvironmentSnapshotRun attempts =
      { lighting := false, singlePerson := false, noDevices := false
        feedback := "Security analysis engine error." } ∧
    (withRetryRun attempts 1 3000 0).2.1 = 2 ∧
    (trialProctorStep (analyzeEnvironmentSnapshotRun attempts)
        a).environmentViolations =
      a.environmentViolations ++ ["Security analysis engine error."] ∧
    (examCamStep now (analyzeEnvironmentSnapshotRun attempts) s).violations =
      s.violations ++ ["Poor Lighting Detected"] := by
  have hrun : withRetryRun attempts 1 3000 0 =
      (Except.error (), 2, [3000]) := by
    simp [withRetryRun, hfail]
  have henv : analyzeEnvironmentSnapshotRun attempts =
      { lighting := false, singlePerson := false, noDevices := false
        feedback := "Security analysis engine error." } := by
    rw [analyzeEnvironmentSnapshotRun, hrun]
    rfl
  have hnd : ¬ (now - s.lastViolation < 2000) := by omega
  refine ⟨henv, by rw [hrun], ?_, ?_⟩
  · rw [henv]
    simp [trialProctorStep]
  · rw [henv]
    simp only [examCamStep]
    simp [addViolation, hnd]

/-- Witness for C10 amended: the always-failing adapter against an empty
trial log and the fresh exam state at time 5000. -/
theorem envFailure_fallback_and_recording_witness :
    analyzeEnvironmentSnapshotRun (fun _ => Except.error ()) =
      { lighting := false, singlePerson := false, noDevices := false
        feedback := "Security analysis engine error." } ∧
    (withRetryRun (fun _ => (Except.error () : Except Unit EnvCheckResult))
      1 3000 0).2.1 = 2 ∧
    (trialProctorStep
        (analyzeEnvironmentSnapshotRun (fun _ => Except.error ()))
        emptyAntiCheatLog).environmentViolations =
      emptyAntiCheatLog.environmentViolations ++
        ["Security analysis engine error."] ∧
    (examCamStep 5000
        (analyzeEnvironmentSnapshotRun (fun _ => Except.error ()))
        initialExamProctorState).violations =
      initialExamProctorState.violations ++ ["Poor Lighting Detected"] :=
  envFailure_fallback_and_recording (fun _ => Except.error ())
    emptyAntiCheatLog initialExamProctorState 5000
    (fun _ => rfl) (by decide)
